import Mathlib

/-!
Verification of the `HeatmapCreator` logic from
`src/review_heatmap/heatmap.py` (Review Heatmap add-on).

The Python code is shallowly embedded: numbers become `ℚ`, Python
dictionaries become association lists or Lean structures, fallible
dictionary lookups become `Option`, and the single external side effect
(writing three statistics onto the host `mw` object) is modelled by
explicit state passing of an `MwCache` value.
-/

set_option maxHeartbeats 1600000

namespace ReviewHeatmap

/-- A Python value that is either a string or a number; `_maybe_pluralize`
returns `Union[str, float]`, line 202 of `heatmap.py`. -/
inductive PyVal where
  | str (s : String)
  | num (q : ℚ)
deriving DecidableEq, Repr

/-- `HeatmapCreator.css_colors`, lines 51-63: the fixed 11-entry CSS colour
tuple. -/
def css_colors : List String :=
  ["rh-col0", "rh-col11", "rh-col12", "rh-col13", "rh-col14", "rh-col15",
   "rh-col16", "rh-col17", "rh-col18", "rh-col19", "rh-col20"]

/-- `HeatmapCreator.compress_levels`, lines 66-67:
`[colors[i] for i in indices]` (all indices used are in range, so the
`getD` default is never taken). -/
def compress_levels (colors : List String) (indices : List Nat) : List String :=
  indices.map (fun i => colors.getD i "")

/-- The `"streak"` entry of `HeatmapCreator.stat_levels`, lines 71-76. -/
def stat_levels_streak : List (ℚ × String) :=
  List.zip [0, 14, 30, 90, 180, 365] (compress_levels css_colors [0, 2, 4, 6, 9, 10])

/-- The `"percentage"` entry of `HeatmapCreator.stat_levels`, line 77. -/
def stat_levels_percentage : List (ℚ × String) :=
  List.zip [0, 25, 50, 60, 70, 80, 85, 90, 95, 99] css_colors

/-- `HeatmapCreator.legend_factors`, line 80. -/
def legend_factors : List ℚ :=
  [0.125, 0.25, 0.5, 0.75, 1, 1.25, 1.5, 2, 4]

/-- `HeatmapCreator.stat_units`, lines 82-86.  The outer `Option` is key
presence (a missing key raises `KeyError` in Python); the inner
`Option String` is the stored value, which is `None` for `"percentage"`. -/
def stat_units (stype : String) : Option (Option String) :=
  if stype = "streak" then some (some "day")
  else if stype = "percentage" then some none
  else if stype = "cards" then some (some "card")
  else none

/-- `HeatmapCreator._maybe_pluralize`, lines 201-205:
`if not term: return count` (Python treats `None` and `""` as falsy), else
`"{} {}{}".format(str(count), term, "s" if abs(count) > 1 else "")`. -/
def maybe_pluralize (count : ℚ) (term : Option String) : PyVal :=
  match term with
  | none => PyVal.num count
  | some t =>
    if t = "" then PyVal.num count
    else PyVal.str (toString count ++ " " ++ t ++ (if 1 < |count| then "s" else ""))

/-- `HeatmapCreator._dynamic_legend`, lines 196-199:
`avg = max(20, average); return [fct * avg for fct in self.legend_factors]`. -/
def dynamic_legend (average : ℚ) : List ℚ :=
  legend_factors.map (fun fct => fct * max 20 average)

/-- `HeatmapCreator._heatmap_legend`, lines 190-194:
`[-i for i in legend[::-1]] + [0] + legend`. -/
def heatmap_legend (legend : List ℚ) : List ℚ :=
  legend.reverse.map (fun i => -i) ++ [0] ++ legend

/-- `HeatmapCreator._get_dynamic_legends`, lines 184-188:
`stats_legend = [0] + legend`, `heatmap_legend = self._heatmap_legend(legend)`. -/
def get_dynamic_legends (average : ℚ) : List ℚ × List ℚ :=
  (0 :: dynamic_legend average, heatmap_legend (dynamic_legend average))

/-- The classification loop of `HeatmapCreator._generate_stats_elm`,
lines 172-175: Python's `for threshold, css_class in levels` rebinds
`css_class` to the entry before testing `value <= threshold`, so on a
`break` the breaking entry's label is returned and on normal exhaustion the
last entry's label is returned; `acc` is the value `css_class` held before
the loop (or the previous iteration). -/
def classify_loop (value : ℚ) : List (ℚ × String) → String → String
  | [], acc => acc
  | (threshold, cssClass) :: rest, _acc =>
    if value ≤ threshold then cssClass else classify_loop value rest cssClass

/-- Lines 172-175 as a whole: `css_class = self.css_colors[0]` followed by
the scan loop. -/
def classify (value : ℚ) (levels : List (ℚ × String)) : String :=
  classify_loop value levels (css_colors.getD 0 "")

/-- The per-call `stat_levels` dictionary of `_generate_stats_elm`,
lines 162-163: `{"cards": list(zip(dynamic_legend, self.css_colors))}`
updated with the two static tables (keys do not clash). `none` models a
`KeyError` for an unregistered stat type. -/
def stats_elm_levels (dynamic_legend : List ℚ) (stype : String) :
    Option (List (ℚ × String)) :=
  if stype = "cards" then some (List.zip dynamic_legend css_colors)
  else if stype = "streak" then some stat_levels_streak
  else if stype = "percentage" then some stat_levels_percentage
  else none

/-- Helper: the scan loop returns the label of the first entry whose
threshold is `≥ value`, and otherwise the last entry's label (or the
initial accumulator when the table is empty). -/
lemma classify_loop_spec (v : ℚ) (tbl : List (ℚ × String)) (acc : String) :
    classify_loop v tbl acc =
      ((tbl.find? (fun p => decide (v ≤ p.1))).map Prod.snd).getD
        ((tbl.getLast?.map Prod.snd).getD acc) := by
  induction tbl generalizing acc with
  | nil => rfl
  | cons hd tl ih =>
    obtain ⟨t, c⟩ := hd
    by_cases hv : v ≤ t
    · simp [classify_loop, hv, List.find?_cons_of_pos]
    · have hfind : List.find? (fun p => decide (v ≤ p.1)) ((t, c) :: tl) =
          List.find? (fun p => decide (v ≤ p.1)) tl := by
        apply List.find?_cons_of_neg
        simpa using hv
      cases tl with
      | nil => simp [classify_loop, hv]
      | cons x xs =>
        rw [hfind]
        simpa [classify_loop, hv] using ih c

/-- Helper: the scan loop's result is either the initial accumulator or the
label of some table entry. -/
lemma classify_loop_mem (v : ℚ) (tbl : List (ℚ × String)) (acc : String) :
    classify_loop v tbl acc = acc ∨ ∃ p ∈ tbl, classify_loop v tbl acc = p.2 := by
  induction tbl generalizing acc with
  | nil => exact Or.inl rfl
  | cons hd tl ih =>
    obtain ⟨t, c⟩ := hd
    by_cases hv : v ≤ t
    · exact Or.inr ⟨(t, c), List.mem_cons_self _ _, by simp [classify_loop, hv]⟩
    · rcases ih c with h0 | ⟨p, hp, he⟩
      · exact Or.inr ⟨(t, c), List.mem_cons_self _ _, by simp [classify_loop, hv, h0]⟩
      · exact Or.inr ⟨p, List.mem_cons_of_mem _ hp, by simp [classify_loop, hv, he]⟩

/-- Claim C1, counterexample: the claim states that the plural suffix is
appended exactly when `abs(value) != 1`, so that `formatLabel(0, "day")`
would be `"0 days"`; the code appends the suffix only when
`abs(count) > 1`, so `formatLabel(0, "day")` is `"0 day"`. -/
theorem maybe_pluralize_claim_false :
    maybe_pluralize 0 (some "day") = PyVal.str "0 day" ∧
      maybe_pluralize 0 (some "day") ≠ PyVal.str "0 days" := by
  constructor <;> decide

/-- Claim C1, amended: for every numeric value, `formatLabel` with an
absent unit returns the value unchanged, and with a non-empty unit returns
`"{value} {unit}"` with the plural suffix `"s"` appended exactly when
`abs(value) > 1`; in particular `formatLabel(1,"day") = "1 day"`,
`formatLabel(0,"day") = "0 day"`, `formatLabel(2,"day") = "2 days"`, and
`formatLabel(5, null) = 5`. -/
theorem maybe_pluralize_amended (count : ℚ) (t : String) (ht : t ≠ "") :
    maybe_pluralize count none = PyVal.num count ∧
    maybe_pluralize count (some t) =
      PyVal.str (toString count ++ " " ++ t ++ (if 1 < |count| then "s" else "")) ∧
    maybe_pluralize 1 (some "day") = PyVal.str "1 day" ∧
    maybe_pluralize 0 (some "day") = PyVal.str "0 day" ∧
    maybe_pluralize 2 (some "day") = PyVal.str "2 days" ∧
    maybe_pluralize 5 none = PyVal.num 5 := by
  refine ⟨rfl, ?_, by decide, by decide, by decide, rfl⟩
  simp [maybe_pluralize, ht]

/-- Witness for C1's amended theorem at `count = 2`, `t = "day"`. -/
theorem maybe_pluralize_amended_witness :
    ("day" : String) ≠ "" ∧ maybe_pluralize 2 (some "day") = PyVal.str "2 days" :=
  ⟨by decide, (maybe_pluralize_amended 2 "day" (by decide)).2.2.2.2.1⟩

/-- Claim C2: for every value and non-empty ascending-sorted threshold
table, classification returns the label of the first entry whose threshold
satisfies `value ≤ threshold`, and the last entry's label when no entry
satisfies it (`List.find?` returns the first match scanning left to
right). -/
theorem classify_first_le_threshold (v : ℚ) (tbl : List (ℚ × String))
    (hne : tbl ≠ []) (hsorted : tbl.Pairwise (fun p q => p.1 ≤ q.1)) :
    classify v tbl =
      ((tbl.find? (fun p => decide (v ≤ p.1))).getD (tbl.getLast hne)).2 := by
  rw [classify, classify_loop_spec]
  rw [List.getLast?_eq_getLast _ hne]
  cases h : tbl.find? (fun p => decide (v ≤ p.1)) with
  | none => simp
  | some p => simp

/-- Witness for C2 at `v = 26` and the table `[(0,"a"),(25,"b"),(50,"c")]`
(the first entry with `26 ≤ threshold` is `(50,"c")`). -/
theorem classify_first_le_threshold_witness :
    (([((0:ℚ),"a"),(25,"b"),(50,"c")] : List (ℚ × String)) ≠ []) ∧
    List.Pairwise (fun (p q : ℚ × String) => p.1 ≤ q.1)
      [((0:ℚ),"a"),(25,"b"),(50,"c")] ∧
    classify 26 [((0:ℚ),"a"),(25,"b"),(50,"c")] = "c" := by
  refine ⟨by decide, by decide, ?_⟩
  rw [classify_first_le_threshold 26 [((0:ℚ),"a"),(25,"b"),(50,"c")] (by decide) (by decide)]
  decide

/-- Helper: the heatmap legend written out, with `m = max 20 average`. -/
lemma heatmap_legend_explicit (average : ℚ) :
    (get_dynamic_legends average).2 =
      [-((4:ℚ) * max 20 average), -((2:ℚ) * max 20 average),
       -((1.5:ℚ) * max 20 average), -((1.25:ℚ) * max 20 average),
       -((1:ℚ) * max 20 average), -((0.75:ℚ) * max 20 average),
       -((0.5:ℚ) * max 20 average), -((0.25:ℚ) * max 20 average),
       -((0.125:ℚ) * max 20 average), 0,
       (0.125:ℚ) * max 20 average, (0.25:ℚ) * max 20 average,
       (0.5:ℚ) * max 20 average, (0.75:ℚ) * max 20 average,
       (1:ℚ) * max 20 average, (1.25:ℚ) * max 20 average,
       (1.5:ℚ) * max 20 average, (2:ℚ) * max 20 average,
       (4:ℚ) * max 20 average] := by
  simp [get_dynamic_legends, heatmap_legend, dynamic_legend, legend_factors]

/-- Claim C3: for every `average ≥ 0` the stats legend has 10 values,
starts with `0` and is strictly ascending, and the heatmap legend has
19 values, is symmetric about its middle (`l[i] = -l[18-i]`), and has
middle element `0`. -/
theorem legends_shape (average : ℚ) (h : 0 ≤ average) :
    (get_dynamic_legends average).1.length = 10 ∧
    (get_dynamic_legends average).1.headD 1 = 0 ∧
    (get_dynamic_legends average).1.Chain' (· < ·) ∧
    (get_dynamic_legends average).2.length = 19 ∧
    (∀ i : ℕ, i < 19 →
      (get_dynamic_legends average).2.getD i 0 =
        -((get_dynamic_legends average).2.getD (18 - i) 0)) ∧
    (get_dynamic_legends average).2.getD 9 0 = 0 := by
  have hm : (20:ℚ) ≤ max 20 average := le_max_left _ _
  refine ⟨rfl, rfl, ?_, ?_, ?_, ?_⟩
  · simp only [get_dynamic_legends, dynamic_legend, legend_factors,
      List.map_cons, List.map_nil, List.chain'_cons, List.chain'_singleton,
      and_true]
    refine ⟨?_, ?_, ?_, ?_, ?_, ?_, ?_, ?_, ?_⟩ <;> nlinarith
  · rw [heatmap_legend_explicit]; rfl
  · intro i hi
    rw [heatmap_legend_explicit]
    interval_cases i <;> simp
  · rw [heatmap_legend_explicit]; rfl

/-- Witness for C3 at `average = 40`. -/
theorem legends_shape_witness :
    (0:ℚ) ≤ 40 ∧ (get_dynamic_legends 40).1.length = 10 ∧
      (get_dynamic_legends 40).1.Chain' (· < ·) :=
  ⟨by norm_num, (legends_shape 40 (by norm_num)).1,
    (legends_shape 40 (by norm_num)).2.2.1⟩

/-- Claim C4: the legend generator floors its input at 20, so any two
averages at most 20 produce identical legends. -/
theorem legends_floor_at_twenty (a b : ℚ) (ha : a ≤ 20) (hb : b ≤ 20) :
    get_dynamic_legends a = get_dynamic_legends b := by
  unfold get_dynamic_legends dynamic_legend
  rw [max_eq_left ha, max_eq_left hb]

/-- Witness for C4 at `a = 5`, `b = 20` (the spec's regression example). -/
theorem legends_floor_at_twenty_witness :
    (5:ℚ) ≤ 20 ∧ (20:ℚ) ≤ 20 ∧ get_dynamic_legends 5 = get_dynamic_legends 20 :=
  ⟨by norm_num, by norm_num,
    legends_floor_at_twenty 5 20 (by norm_num) (by norm_num)⟩

/-- Claim C8: the `"cards"` threshold table is built fresh from the
10-element stats legend zipped against the fixed 11-entry colour sequence,
yielding exactly 10 pairs whose thresholds are the stats-legend values in
order and whose labels are the first 10 colours; the static `"streak"` and
`"percentage"` tables are returned unchanged. -/
theorem cards_table_fresh_zip (average : ℚ) :
    stats_elm_levels (get_dynamic_legends average).1 "cards" =
      some (List.zip (get_dynamic_legends average).1 css_colors) ∧
    (List.zip (get_dynamic_legends average).1 css_colors).length = 10 ∧
    (List.zip (get_dynamic_legends average).1 css_colors).map Prod.fst =
      (get_dynamic_legends average).1 ∧
    (List.zip (get_dynamic_legends average).1 css_colors).map Prod.snd =
      css_colors.take 10 ∧
    stats_elm_levels (get_dynamic_legends average).1 "streak" =
      some stat_levels_streak ∧
    stats_elm_levels (get_dynamic_legends average).1 "percentage" =
      some stat_levels_percentage :=
  ⟨rfl, rfl, rfl, rfl, rfl, rfl⟩

/-- Claim C10: classification is total and closed over the colour set:
whenever every table label is one of the fixed 11 colours, the result is
one of the fixed 11 colours, and the empty table yields the pre-initialized
default `"rh-col0"`. -/
theorem classify_total_closed (v : ℚ) (tbl : List (ℚ × String))
    (h : ∀ p ∈ tbl, p.2 ∈ css_colors) :
    classify v tbl ∈ css_colors ∧ (tbl = [] → classify v tbl = "rh-col0") := by
  constructor
  · rcases classify_loop_mem v tbl (css_colors.getD 0 "") with h0 | ⟨p, hp, he⟩
    · rw [classify, h0]; decide
    · rw [classify, he]; exact h p hp
  · intro ht; subst ht; rfl

/-- Witness for C10 at `v = 7` over a two-entry table drawn from the colour
set. -/
theorem classify_total_closed_witness :
    (∀ p ∈ ([((0:ℚ), "rh-col0"), (25, "rh-col12")] : List (ℚ × String)),
      p.2 ∈ css_colors) ∧
    classify 7 [((0:ℚ), "rh-col0"), (25, "rh-col12")] ∈ css_colors :=
  ⟨by decide, (classify_total_closed 7 _ (by decide)).1⟩

/-- One entry of `data["stats"]` (an insertion-ordered dictionary in
Python): the key and the `{"type": ..., "value": ...}` record. -/
structure StatEntry where
  name : String
  stype : String
  value : ℚ
deriving DecidableEq, Repr

/-- The activity snapshot returned by `ActivityReporter.get_data` (the
reporter itself is external to `heatmap.py`): the fields `generate` reads
on lines 101-158. -/
structure SnapshotData where
  activity : List (Int × ℚ)
  stats : List StatEntry
  start : Int
  stop : Int
  today : Int
  offset : Int
deriving DecidableEq, Repr

/-- `self.config["profile"]` fields read by `generate`, lines 100-121:
the per-view display flag dictionary and the `statsvis` override. -/
structure Prefs where
  display : String → Bool
  statsvis : Bool

/-- `self.config["synced"]` fields read on lines 131-141. -/
structure SyncedConf where
  colors : String
  mode : String
deriving DecidableEq, Repr

/-- `self.config` as consumed by `HeatmapCreator`. -/
structure Config where
  profile : Prefs
  synced : SyncedConf

/-- One preset of `heatmap_modes` (imported from `.config`, external to
`heatmap.py`); the four fields read on lines 145-148. -/
structure HeatmapMode where
  domain : String
  subDomain : String
  range : Int
  domLabForm : String
deriving DecidableEq, Repr

/-- External collaborators of `heatmap.py`: the platform string
(`libaddon.platform.PLATFORM`) and the `heatmap_modes` preset table from
`.config`, modelled as a total lookup (the configured mode name is assumed
registered). -/
structure Externals where
  platform : String
  heatmap_modes : String → HeatmapMode

/-- The `options` dictionary built on lines 144-155. -/
structure HeatmapOptions where
  domain : String
  subdomain : String
  range : Int
  domLabForm : String
  start : Int
  stop : Int
  today : Int
  offset : Int
  legend : List ℚ
  whole : Bool
deriving DecidableEq, Repr

/-- The data handed to the `html_heatmap` template on lines 157-159: the
`options` dictionary and the raw activity series (the template string
itself lives in the external `.web` module). -/
structure HeatmapElm where
  options : HeatmapOptions
  data : List (Int × ℚ)
deriving DecidableEq, Repr

/-- `HeatmapCreator._generate_heatmap_elm`, lines 140-159. -/
def generate_heatmap_elm (mode : HeatmapMode) (whole : Bool)
    (data : SnapshotData) (dynamic_legend : List ℚ) : HeatmapElm :=
  { options :=
      { domain := mode.domain
        subdomain := mode.subDomain
        range := mode.range
        domLabForm := mode.domLabForm
        start := data.start
        stop := data.stop
        today := data.today
        offset := data.offset
        legend := dynamic_legend
        whole := whole }
    data := data.activity }

/-- `HeatmapCreator._generate_stats_elm`, lines 161-182: for each stat, the
`format_dict` receives the CSS class under `"class_" + name` and the label
under `"text_" + name`; modelled as the list of
`(name, cssClass, label)` triples handed to the external `html_streak`
template. `none` models the `KeyError` Python raises for an unregistered
stat type. -/
def generate_stats_elm (data : SnapshotData) (dynamic_legend : List ℚ) :
    Option (List (String × String × PyVal)) :=
  data.stats.mapM fun st =>
    (stats_elm_levels dynamic_legend st.stype).bind fun levels =>
      (stat_units st.stype).map fun unit =>
        (st.name, classify st.value levels, maybe_pluralize st.value unit)

/-- `HeatmapCreator._get_css_classes`, lines 130-138. -/
def get_css_classes (platform : String) (conf : SyncedConf) (view : String) :
    List String :=
  ["rh-platform-" ++ platform, "rh-theme-" ++ conf.colors,
   "rh-mode-" ++ conf.mode, "rh-view-" ++ view]

/-- The three attributes `_save_current_perf` (lines 207-218) sets on the
host `mw` object: `_hmStreakMax`, `_hmStreakCur`, `_hmActivityDailyAvg`
(`none` = attribute never written). -/
structure MwCache where
  hmStreakMax : Option ℚ
  hmStreakCur : Option ℚ
  hmActivityDailyAvg : Option ℚ
deriving DecidableEq, Repr

/-- `HeatmapCreator._save_current_perf`, lines 207-218: reads the three
headline stats from `data["stats"]` (a missing key raises `KeyError`,
modelled as `none`) and returns the cache state after the three writes. -/
def save_current_perf (data : SnapshotData) : Option MwCache :=
  ((data.stats.find? (fun st => st.name == "streak_max")).map StatEntry.value).bind
    fun m =>
  ((data.stats.find? (fun st => st.name == "streak_cur")).map StatEntry.value).bind
    fun c =>
  ((data.stats.find? (fun st => st.name == "activity_daily_avg")).map StatEntry.value).map
    fun a =>
  { hmStreakMax := some m, hmStreakCur := some c, hmActivityDailyAvg := some a }

/-- The content argument of `html_main_element.format`, line 104 and
lines 126-128: either the external `html_info_nodata` blurb, or the
concatenation `heatmap + stats` where each part is the generated element or
the empty string (modelled with `Option`). -/
inductive Content where
  | noData
  | elems (heatmap : Option HeatmapElm) (stats : Option (List (String × String × PyVal)))
deriving DecidableEq, Repr

/-- The two arguments handed to the external `html_main_element` template:
the content and the CSS class list (joined with `" "` on line 127; the
no-data branch on line 104 passes `classes=""`, i.e. the empty list). -/
structure GenOutput where
  content : Content
  classes : List String
deriving DecidableEq, Repr

/-- The fixed no-data payload of line 104. -/
def no_data_output : GenOutput :=
  { content := Content.noData, classes := [] }

/-- `HeatmapCreator.generate`, lines 94-128.  `data?` is the result of the
external `self.activity.get_data(...)` call (`none` when the reporter
yields no data); `cache` is the host `mw` state before the call; the result
is `none` when the Python code would raise, and otherwise the returned
payload paired with the host `mw` state after the call. -/
def generate (ext : Externals) (config : Config) (whole : Bool)
    (data? : Option SnapshotData) (view : String) (cache : MwCache) :
    Option (GenOutput × MwCache) :=
  match data? with
  | none => some (no_data_output, cache)
  | some data =>
    ((data.stats.find? (fun st => st.name == "activity_daily_avg")).map
        StatEntry.value).bind fun avg =>
      let legends := get_dynamic_legends avg
      let classes0 := get_css_classes ext.platform config.synced view
      let heatmap : Option HeatmapElm :=
        if config.profile.display view then
          some (generate_heatmap_elm (ext.heatmap_modes config.synced.mode)
            whole data legends.2)
        else none
      let classes1 :=
        if config.profile.display view then classes0
        else classes0 ++ ["rh-disable-heatmap"]
      (if config.profile.display view || config.profile.statsvis then
          (generate_stats_elm data legends.1).map some
        else some none).bind fun stats =>
        let classes2 :=
          if config.profile.display view || config.profile.statsvis then classes1
          else classes1 ++ ["rh-disable-stats"]
        (if whole then save_current_perf data else some cache).bind fun cacheAfter =>
          some ({ content := Content.elems heatmap stats, classes := classes2 },
            cacheAfter)

/-- The heatmap element carried by a payload (`heatmap` was set on
line 114, or left `""` on line 112). -/
def heatmap_of (o : GenOutput) : Option HeatmapElm :=
  match o.content with
  | Content.elems hm _ => hm
  | Content.noData => none

/-- The stats element carried by a payload (`stats` was set on line 119,
or left `""` on line 112). -/
def stats_of (o : GenOutput) : Option (List (String × String × PyVal)) :=
  match o.content with
  | Content.elems _ st => st
  | Content.noData => none

/-- Claim C6: when the activity source yields no data, `generate`
short-circuits to the fixed no-data payload — no heatmap content, no stats
content, no CSS classes — leaves the host cache untouched even in
whole-collection mode, and returns normally (`some`, not a raised error). -/
theorem generate_no_data (ext : Externals) (config : Config) (whole : Bool)
    (view : String) (cache : MwCache) :
    generate ext config whole none view cache = some (no_data_output, cache) ∧
    no_data_output.content = Content.noData ∧
    no_data_output.classes = [] :=
  ⟨rfl, rfl, rfl⟩

/-- Claim C5, amended: heatmap visibility is gated by the per-view display
preference alone, and stats visibility by that same preference OR-ed with
the `statsvis` override, so the two gates are not independent: the stats
section can be produced while the heatmap is suppressed, but whenever the
heatmap is produced the stats section is produced as well; a suppressed
section contributes a `"rh-disable-..."` marker class to the output
classification. -/
theorem visibility_gating_amended (ext : Externals) (config : Config)
    (whole : Bool) (snap : SnapshotData) (view : String) (cache : MwCache)
    (out : GenOutput) (cache' : MwCache)
    (h : generate ext config whole (some snap) view cache = some (out, cache')) :
    (heatmap_of out).isSome = config.profile.display view ∧
    (stats_of out).isSome = (config.profile.display view || config.profile.statsvis) ∧
    ((heatmap_of out).isSome = true → (stats_of out).isSome = true) ∧
    (config.profile.display view = false → "rh-disable-heatmap" ∈ out.classes) ∧
    ((config.profile.display view || config.profile.statsvis) = false →
      "rh-disable-stats" ∈ out.classes) := by
  simp only [generate, Option.bind_eq_some, Option.some.injEq, Prod.mk.injEq] at h
  obtain ⟨avg, hAvg, stats, hStats, cacheA, hCache, hOut, hCacheEq⟩ := h
  subst hOut
  cases hd : config.profile.display view with
  | true =>
    have hgate : (config.profile.display view || config.profile.statsvis) = true := by
      simp [hd]
    rw [hgate] at hStats
    simp only [if_true] at hStats
    rcases hgse : generate_stats_elm snap (get_dynamic_legends avg).1 with _ | s
    · rw [hgse] at hStats
      simp at hStats
    · rw [hgse] at hStats
      simp only [Option.map_some', Option.some.injEq] at hStats
      subst hStats
      simp [heatmap_of, stats_of, hd, hgate]
  | false =>
    cases hs : config.profile.statsvis with
    | true =>
      have hgate : (config.profile.display view || config.profile.statsvis) = true := by
        simp [hd, hs]
      rw [hgate] at hStats
      simp only [if_true] at hStats
      rcases hgse : generate_stats_elm snap (get_dynamic_legends avg).1 with _ | s
      · rw [hgse] at hStats
        simp at hStats
      · rw [hgse] at hStats
        simp only [Option.map_some', Option.some.injEq] at hStats
        subst hStats
        simp [heatmap_of, stats_of, hd, hs]
    | false =>
      have hgate : (config.profile.display view || config.profile.statsvis) = false := by
        simp [hd, hs]
      rw [hgate] at hStats
      simp only [Bool.false_eq_true, if_false, Option.some.injEq] at hStats
      subst hStats
      simp [heatmap_of, stats_of, hd, hs]

/-- Fixtures for the concrete `generate` runs: external collaborators, a
configuration parametrized by the two display booleans, and snapshots. -/
def ext0 : Externals :=
  { platform := "win"
    heatmap_modes := fun _ =>
      { domain := "month", subDomain := "day", range := 12, domLabForm := "%b" } }

/-- Configuration whose per-view display flag is `d` and whose stats
override is `s`. -/
def cfg_c5 (d s : Bool) : Config :=
  { profile := { display := fun _ => d, statsvis := s }
    synced := { colors := "olive", mode := "year" } }

/-- A snapshot carrying only the mandatory `activity_daily_avg` stat. -/
def data_c5 : SnapshotData :=
  { activity := [(100, 3)]
    stats := [⟨"activity_daily_avg", "percentage", 40⟩]
    start := 0, stop := 200, today := 150, offset := 0 }

/-- The host cache before any write. -/
def cache0 : MwCache := ⟨none, none, none⟩

/-- Claim C5, counterexample: no assignment of the two boolean preferences
produces a payload whose heatmap section is present while its stats section
is suppressed — the claimed independence fails in that direction. -/
theorem visibility_not_independent :
    ((generate ext0 (cfg_c5 false false) false (some data_c5) "deckbrowser" cache0).map
        (fun r => ((heatmap_of r.1).isSome, (stats_of r.1).isSome)) ≠
      some (true, false)) ∧
    ((generate ext0 (cfg_c5 false true) false (some data_c5) "deckbrowser" cache0).map
        (fun r => ((heatmap_of r.1).isSome, (stats_of r.1).isSome)) ≠
      some (true, false)) ∧
    ((generate ext0 (cfg_c5 true false) false (some data_c5) "deckbrowser" cache0).map
        (fun r => ((heatmap_of r.1).isSome, (stats_of r.1).isSome)) ≠
      some (true, false)) ∧
    ((generate ext0 (cfg_c5 true true) false (some data_c5) "deckbrowser" cache0).map
        (fun r => ((heatmap_of r.1).isSome, (stats_of r.1).isSome)) ≠
      some (true, false)) := by
  refine ⟨by decide, by decide, by decide, by decide⟩

/-- The configuration exhibiting stats-without-heatmap: display off,
`statsvis` on. -/
def cfg_c5w : Config := cfg_c5 false true

/-- The concrete run for C5's witness. -/
def gen5 : Option (GenOutput × MwCache) :=
  generate ext0 cfg_c5w false (some data_c5) "deckbrowser" cache0

/-- The payload of that run. -/
def out5 : GenOutput := (gen5.getD (no_data_output, cache0)).1

/-- Witness for C5's amended theorem: with display off and `statsvis` on,
the heatmap is suppressed while the stats section is produced. -/
theorem visibility_gating_amended_witness :
    gen5 = some (out5, cache0) ∧ (heatmap_of out5).isSome = false ∧
      (stats_of out5).isSome = true := by
  have hg : gen5 = some (out5, cache0) := rfl
  have h := visibility_gating_amended ext0 cfg_c5w false data_c5 "deckbrowser"
    cache0 out5 cache0 hg
  exact ⟨hg, by simpa [cfg_c5w, cfg_c5] using h.1, by simpa [cfg_c5w, cfg_c5] using h.2.1⟩

/-- Claim C7: a successful `generate` run writes the three headline
statistics to the host cache exactly when operating in whole-collection
mode — otherwise the cache is returned unchanged — and the incoming cache
value has no effect on the returned payload (fire-and-forget,
last-writer-wins). -/
theorem cache_write_iff_whole (ext : Externals) (config : Config)
    (whole : Bool) (snap : SnapshotData) (view : String) (cache : MwCache)
    (out : GenOutput) (cache' : MwCache)
    (h : generate ext config whole (some snap) view cache = some (out, cache')) :
    (whole = false → cache' = cache) ∧
    (whole = true → save_current_perf snap = some cache') ∧
    (∀ cache2 : MwCache, generate ext config whole (some snap) view cache2 =
      some (out, if whole then cache' else cache2)) := by
  simp only [generate, Option.bind_eq_some, Option.some.injEq, Prod.mk.injEq] at h
  obtain ⟨avg, hAvg, stats, hStats, cacheA, hCache, hOut, hCacheEq⟩ := h
  subst hCacheEq
  cases whole with
  | false =>
    simp only [if_false, Bool.false_eq_true, Option.some.injEq] at hCache ⊢
    refine ⟨fun _ => hCache.symm, fun hF => absurd hF (by simp), ?_⟩
    intro cache2
    simp only [generate, Option.bind_eq_some, Option.some.injEq, Prod.mk.injEq]
    exact ⟨avg, hAvg, stats, hStats, cache2, by simp, hOut, rfl⟩
  | true =>
    simp only [if_true] at hCache ⊢
    refine ⟨fun hF => absurd hF (by simp), fun _ => hCache, ?_⟩
    intro cache2
    simp only [generate, Option.bind_eq_some, Option.some.injEq, Prod.mk.injEq]
    exact ⟨avg, hAvg, stats, hStats, cacheA, hCache, hOut, rfl⟩

/-- A snapshot carrying the three headline statistics used by
`_save_current_perf`. -/
def data_c7 : SnapshotData :=
  { activity := [(100, 3)]
    stats := [⟨"streak_max", "streak", 90⟩, ⟨"streak_cur", "streak", 45⟩,
              ⟨"activity_daily_avg", "percentage", 40⟩]
    start := 0, stop := 200, today := 150, offset := 0 }

/-- The concrete whole-collection run shared by the C7 and C9 witnesses. -/
def gen7 : Option (GenOutput × MwCache) :=
  generate ext0 (cfg_c5 true true) true (some data_c7) "deckbrowser" cache0

/-- The payload of that run. -/
def out7 : GenOutput := (gen7.getD (no_data_output, cache0)).1

/-- The cache state after that run: the three headline statistics. -/
def cache7 : MwCache := ⟨some 90, some 45, some 40⟩

/-- Witness for C7: the whole-collection run writes exactly the snapshot's
three headline statistics into the cache. -/
theorem cache_write_iff_whole_witness :
    gen7 = some (out7, cache7) ∧ save_current_perf data_c7 = some cache7 := by
  have hg : gen7 = some (out7, cache7) := rfl
  exact ⟨hg, (cache_write_iff_whole ext0 (cfg_c5 true true) true data_c7
    "deckbrowser" cache0 out7 cache7 hg).2.1 rfl⟩

/-- Claim C9: `generate` is a deterministic function of the snapshot and
configuration — re-running it on the state its first call produced yields
the byte-identical payload and the same cache, the documented cache write
being the only state change. -/
theorem generate_idempotent (ext : Externals) (config : Config) (whole : Bool)
    (data? : Option SnapshotData) (view : String) (cache : MwCache)
    (out : GenOutput) (cache' : MwCache)
    (h : generate ext config whole data? view cache = some (out, cache')) :
    generate ext config whole data? view cache' = some (out, cache') := by
  cases data? with
  | none =>
    simp only [generate, Option.some.injEq, Prod.mk.injEq] at h
    obtain ⟨ho, hc⟩ := h
    subst ho; subst hc; rfl
  | some data =>
    simp only [generate, Option.bind_eq_some, Option.some.injEq, Prod.mk.injEq] at h ⊢
    obtain ⟨avg, hAvg, stats, hStats, cacheA, hCache, hOut, hCacheEq⟩ := h
    subst hCacheEq
    refine ⟨avg, hAvg, stats, hStats, cacheA, ?_, hOut, rfl⟩
    cases whole with
    | true => simpa using hCache
    | false => simp

/-- Witness for C9: re-running the C7 whole-collection call on its own
output cache reproduces the identical payload and cache. -/
theorem generate_idempotent_witness :
    gen7 = some (out7, cache7) ∧
    generate ext0 (cfg_c5 true true) true (some data_c7) "deckbrowser" cache7 =
      some (out7, cache7) := by
  have hg : gen7 = some (out7, cache7) := rfl
  exact ⟨hg, generate_idempotent ext0 (cfg_c5 true true) true (some data_c7)
    "deckbrowser" cache0 out7 cache7 hg⟩

end ReviewHeatmap
